import Mathlib

/-!
Shallow embedding of the chunked capture pipeline, recorder state machine,
transcript log and audio visualizer of the live-translation app.

Sources embedded:
- `src/components/AudioRecorder.tsx` and its `unnamed/part_001` variant
  (the variant adds the mount-time API-key check, a processing-status
  indicator and an error toast for API failures inside `processChunk`);
  where the two differ, the variant cited by the claims is followed and
  the difference is noted at the definition.
- the `openai` service module (`transcribeAudio`, `correctTranscript`,
  `translateText` appended to `AudioRecorder.tsx`).
- `src/App.tsx` (`handleNewTranscript`, the transcript log).
- the audio visualizer (`unnamed/part_000`, the `draw` loop).

Remote calls and the microphone are modelled as oracles: the outcome of each call
 (raised error, or returned value, with JS `null` content as
`none`) is a parameter, and the embedded functions compute exactly what
the source does with that outcome.
-/

namespace LiveTranslation

/-- A JavaScript error value as the catch blocks inspect it: a `name`
and a `message` (absent message modelled as `""`). -/
structure JsError where
  name : String
  message : String
deriving DecidableEq, Repr

/-- JS `s.includes(sub)` for the substring tests in the catch blocks. -/
def includesSubstr (s sub : String) : Bool :=
  (s.splitOn sub).length > 1

/-- JS `content || fallback`: `null` (here `none`) and the empty string
are falsy and select the fallback. -/
def jsOrString (content : Option String) (fallback : String) : String :=
  match content with
  | none => fallback
  | some s => if s.isEmpty then fallback else s

/-- One chat-completion request as the service module builds it:
the system instruction and the user content. -/
structure ChatRequest where
  system : String
  user : String
deriving DecidableEq, Repr

/-- Outcome of one remote chat-completion call: the call raised, or it
returned with `choices[0].message.content` (JS `null` as `none`). -/
abbrev ChatOutcome := Except JsError (Option String)

/-- The three remote outcomes the pipeline of a single chunk can observe:
stage 1 (speech-to-text) either raises or yields text; stages 2 and 3
are chat completions. -/
structure ChunkOracle where
  stage1 : Except JsError String
  stage2 : ChatOutcome
  stage3 : ChatOutcome
deriving Repr

/-- The fixed correction system instruction (`SYSTEM_PROMPT_CORRECTION`
in the service module, a template literal with embedded newlines). -/
def SYSTEM_PROMPT_CORRECTION : String :=
  "\nYou are a helpful assistant for the company ZyntriQix. Your task is \nto correct any spelling discrepancies in the transcribed text. Make \nsure that the names of the following products are spelled correctly: \nZyntriQix, Digique Plus, CynapseFive, VortiQore V8, EchoNix Array, \nOrbitalLink Seven, DigiFractal Matrix, PULSE, RAPT, B.R.I.C.K., \nQ.U.A.R.T.Z., F.L.I.N.T. Only add necessary punctuation such as \nperiods, commas, and capitalization, and use only the context provided.\n"

/-- The transcription request `transcribeAudio` sends: chunk file name,
model, and the language hint it was called with. -/
structure TranscriptionRequest where
  fileName : String
  model : String
  language : String
deriving DecidableEq, Repr

/-- The request `transcribeAudio` sends for a chunk (`speech.webm`, `whisper-1`,
the selected language). The call itself rethrows any error, so its
outcome is exactly `stage1` of the oracle. -/
def transcribeRequest (language : String) : TranscriptionRequest :=
  ⟨"speech.webm", "whisper-1", language⟩

/-- `correctTranscript transcript`: the request it sends and the string
it returns. On success it returns `content || transcript`; the catch
block returns `transcript`. It never rethrows. -/
def correctTranscript (transcript : String) (remote : ChatOutcome) :
    ChatRequest × String :=
  (⟨SYSTEM_PROMPT_CORRECTION, transcript⟩,
   match remote with
   | .ok content => jsOrString content transcript
   | .error _ => transcript)

/-- The translation system instruction as a function of `targetLang`
(the template literal in `translateText`). -/
def translationSystemPrompt (targetLang : String) : String :=
  "You are a professional translator. Translate the user input into "
    ++ (if targetLang = "en" then "English" else targetLang)
    ++ ". If it is already "
    ++ (if targetLang = "en" then "English" else targetLang)
    ++ ", just refine it slightly."

/-- The request `translateText text targetLang` sends; `targetLang`
defaults to `"en"` exactly as in the source signature. -/
def translateRequest (text : String) (targetLang : String := "en") :
    ChatRequest :=
  ⟨translationSystemPrompt targetLang, text⟩

/-- `translateText text`: the request it sends and the string it
returns. On success it returns `content || ""`; the catch block returns
`""`. It never rethrows. -/
def translateText (text : String) (remote : ChatOutcome)
    (targetLang : String := "en") : ChatRequest × String :=
  (translateRequest text targetLang,
   match remote with
   | .ok content => jsOrString content ""
   | .error _ => "")

/-- JS `s.trim()`: strip leading and trailing whitespace (written by
structural recursion over the character data so that it evaluates by
`decide`). -/
def jsTrim (s : String) : String :=
  String.mk
    (((s.data.dropWhile Char.isWhitespace).reverse.dropWhile
        Char.isWhitespace).reverse)

/-- The guard in `processChunk` after stage 1:
`!transcript || transcript.trim().length === 0` (the
typeof-is-not-string disjunct is vacuous here, the model
types stage-1 results as strings). -/
def emptyTranscriptGuard (transcript : String) : Bool :=
  transcript.isEmpty || (jsTrim transcript).isEmpty

/-- Everything externally observable from one `processChunk` run: the
transcription request it sent, the stage-2 and stage-3 requests (absent
when the stage was never invoked), and the `(original, translation)`
pair handed to `onNewTranscript` (absent when no item was produced). -/
structure ChunkEffect where
  stage1Request : TranscriptionRequest
  stage2Request : Option ChatRequest
  stage3Request : Option ChatRequest
  appended : Option (String × String)
deriving DecidableEq, Repr

/-- `processChunk` for one chunk, given the three remote outcomes:
stage 1 raising lands in the catch block (no item); an empty or
whitespace-only transcript returns early (stages 2 and 3 not invoked);
otherwise the stage-2 result is the corrected text, stage 3 is called on it
with no explicit target language, and `onNewTranscript corrected
translation` fires. -/
def processChunk (language : String) (o : ChunkOracle) : ChunkEffect :=
  match o.stage1 with
  | .error _ => ⟨transcribeRequest language, none, none, none⟩
  | .ok transcript =>
    if emptyTranscriptGuard transcript then
      ⟨transcribeRequest language, none, none, none⟩
    else
      let corr := correctTranscript transcript o.stage2
      let tran := translateText corr.2 o.stage3
      ⟨transcribeRequest language, some corr.1, some tran.1,
        some (corr.2, tran.2)⟩

/-! The transcript log (`src/App.tsx`). -/

/-- A transcript item as `App.tsx` builds it. -/
structure TranscriptItem where
  id : Nat
  original : String
  translation : String
  timestamp : String
deriving DecidableEq, Repr

/-- `handleNewTranscript`: builds the item with `id := Date.now()` (the
wall clock in ms at the moment of append, passed here as `now`) and the
locale time string, and appends it to the log
(`setTranscripts(prev => [...prev, newItem])`). -/
def handleNewTranscript (now : Nat) (timestamp : String)
    (log : List TranscriptItem) (original translation : String) :
    List TranscriptItem :=
  log ++ [⟨now, original, translation, timestamp⟩]

/-- The effect of one whole chunk on the transcript log: `processChunk`
composed with `handleNewTranscript` when an item was produced. -/
def processChunkLog (language : String) (o : ChunkOracle) (now : Nat)
    (ts : String) (log : List TranscriptItem) : List TranscriptItem :=
  match (processChunk language o).appended with
  | none => log
  | some p => handleNewTranscript now ts log p.1 p.2

/-! State of the recorder component and handlers (`unnamed/part_001`,
the `AudioRecorder` variant with the mount-time API-key check; the
`startRecording` catch block and `stopRecording`/`togglePause` are
identical in `src/components/AudioRecorder.tsx`). -/

/-- The state of the underlying `MediaRecorder` handle. -/
inductive MediaRecorderState
  | recording
  | paused
  | stopped
deriving DecidableEq, Repr

/-- A media stream: its tracks, each carrying a stopped flag
(`true` = `track.stop()` has been called). -/
structure MediaStream where
  tracks : List Bool
deriving DecidableEq, Repr

/-- The `AudioContext` handle: whether `close()` has been called. -/
structure AudioContextState where
  closed : Bool
deriving DecidableEq, Repr

/-- React state and refs of the component, plus the analyser handle last
published through `onAnalyserReady` (`true` = a live analyser,
`false` = `null`). -/
structure RecorderModel where
  isRecording : Bool
  isPaused : Bool
  error : Option String
  processingStatus : Option String
  apiKeyMissing : Bool
  mediaRecorder : Option MediaRecorderState
  stream : Option MediaStream
  audioContext : Option AudioContextState
  analyserPublished : Bool
deriving DecidableEq, Repr

/-- Initial state of the component (`useState(false)`, `useState(null)`,
empty refs). -/
def initialRecorder : RecorderModel :=
  ⟨false, false, none, none, false, none, none, none, false⟩

/-- The mount-time `useEffect`: if `isApiKeyConfigured()` is false, set
`apiKeyMissing`. The boolean result of the predicate is passed in. -/
def mountApiKeyCheck (isApiKeyConfigured : Bool) (s : RecorderModel) :
    RecorderModel :=
  if !isApiKeyConfigured then { s with apiKeyMissing := true } else s

/-- The render condition of the API-key warning banner:
`apiKeyMissing && !error`. -/
def apiKeyWarningVisible (s : RecorderModel) : Bool :=
  s.apiKeyMissing && s.error.isNone

/-- The error message `startRecording` sets when the key is missing. -/
def apiKeyMissingError : String :=
  "OpenAI API key is not configured. Transcription will not work."

/-- The classification chain in the catch block of `startRecording`, in
source order. -/
def classifyMicError (e : JsError) : String :=
  if e.name = "NotFoundError" || includesSubstr e.message "not found" then
    "No microphone detected. Please connect a microphone and try again."
  else if e.name = "NotAllowedError" || e.name = "PermissionDeniedError" then
    "Microphone access denied. Please allow microphone access in your browser settings."
  else if e.name = "NotReadableError" then
    "Microphone is in use by another application."
  else if e.message ≠ "" then
    "Microphone error: " ++ e.message
  else
    "Unable to access microphone."

/-- What one `startRecording` call did: the state it left behind,
whether `getUserMedia` was reached, and whether `mediaRecorder.start`
ran (the chunk pipeline was started). -/
structure StartResult where
  state : RecorderModel
  micRequested : Bool
  recorderStarted : Bool
deriving DecidableEq, Repr

/-- `startRecording` (the `part_001` variant): clear the error; if
`apiKeyMissing`, set the key error and return before `getUserMedia`;
otherwise request the microphone — on failure set the classified
message, on success install the stream, audio context and analyser,
start the recorder sliced at `CHUNK_INTERVAL`, and enter Recording. -/
def startRecording (s : RecorderModel)
    (mic : Except JsError MediaStream) : StartResult :=
  let s0 := { s with error := none }
  if s0.apiKeyMissing then
    ⟨{ s0 with error := some apiKeyMissingError }, false, false⟩
  else
    match mic with
    | .error e =>
      ⟨{ s0 with error := some (classifyMicError e) }, true, false⟩
    | .ok stream =>
      ⟨{ s0 with
          stream := some stream,
          audioContext := some ⟨false⟩,
          analyserPublished := true,
          mediaRecorder := some .recording,
          isRecording := true,
          isPaused := false }, true, true⟩

/-- `stopRecording`: guarded by `mediaRecorderRef.current && isRecording`;
stops the recorder, stops every stream track, closes the audio context,
publishes a `null` analyser, and clears the recording/paused flags. -/
def stopRecording (s : RecorderModel) : RecorderModel :=
  match s.mediaRecorder, s.isRecording with
  | some _, true =>
    { s with
        mediaRecorder := some .stopped,
        stream := s.stream.map (fun st => ⟨st.tracks.map (fun _ => true)⟩),
        audioContext := s.audioContext.map (fun _ => ⟨true⟩),
        analyserPublished := false,
        isRecording := false,
        isPaused := false }
  | _, _ => s

/-- `togglePause`: guarded by `mediaRecorderRef.current`; resumes when
paused, pauses otherwise. It touches no ref and no analyser. -/
def togglePause (s : RecorderModel) : RecorderModel :=
  match s.mediaRecorder with
  | some _ =>
    if s.isPaused then
      { s with mediaRecorder := some .recording, isPaused := false }
    else
      { s with mediaRecorder := some .paused, isPaused := true }
  | none => s

/-- The error toast the catch block of `processChunk` sets for API errors. -/
def apiErrorMessage : String :=
  "OpenAI API error. Please check your API key configuration."

/-- The effect of one `processChunk` run on the component state (the
`part_001` variant): the catch block of a stage-1 raise clears the
processing status and, for API-looking messages, sets an error toast;
no path touches `isRecording`, the refs, or the analyser. -/
def processChunkState (s : RecorderModel) (o : ChunkOracle) :
    RecorderModel :=
  match o.stage1 with
  | .error e =>
    let s1 := { s with processingStatus := none }
    if includesSubstr e.message "API" || includesSubstr e.message "401"
        || includesSubstr e.message "403" then
      { s1 with error := some apiErrorMessage }
    else s1
  | .ok _ => { s with processingStatus := none }

/-! The audio visualizer (`unnamed/part_000`): the per-frame, per-dot
radius computation of the `draw` loop, over exact rationals. JS numbers
are IEEE doubles; the arithmetic here is the same expressions over `ℚ`
(with `Math.PI` as the exact rational value of the double), ignoring
intermediate rounding. -/

/-- The exact rational value of the IEEE-754 double `Math.PI`. -/
def jsPI : ℚ := 884279719003555 / 281474976710656

/-- A visualizer dot: `{x, y, baseR, angle, speed}`. -/
structure Dot where
  x : ℚ
  y : ℚ
  baseR : ℚ
  angle : ℚ
  speed : ℚ
deriving DecidableEq, Repr

/-- The bin picked for a dot:
`Math.floor(((dot.angle + Math.PI) / (2 * Math.PI)) * bufferLength) % bufferLength`,
with the JS `%` (truncated remainder, sign of the dividend). -/
def binIndex (angle : ℚ) (bufferLength : ℕ) : ℤ :=
  (Int.floor ((angle + jsPI) / (2 * jsPI) * bufferLength)).tmod bufferLength

/-- `dataArray[i] || 0`: an out-of-range index reads `undefined`, which
is falsy, so it and a zero bin both give `0`. -/
def freqLookup (data : List ℕ) (i : ℤ) : ℕ :=
  if h : 0 ≤ i ∧ i.toNat < data.length then data.get ⟨i.toNat, h.2⟩ else 0

/-- The instantaneous radius of one dot exactly as the `draw` loop
computes it: the frame-wide `average` over all bins and
`scale = 1 + (average / 128) * 1.5`, then the bin of the current dot
angle and `currentRadius = dot.baseR * scale + (freqValue / 255) * 40`
(the angle update `dot.angle += dot.speed` happens after this). -/
def dotCurrentRadius (data : List ℕ) (dot : Dot) : ℚ :=
  let average : ℚ := (data.sum : ℚ) / data.length
  let scale : ℚ := 1 + average / 128 * 1.5
  let freqValue : ℕ := freqLookup data (binIndex dot.angle data.length)
  dot.baseR * scale + (freqValue : ℚ) / 255 * 40

/-- The mean energy over all frequency bins, as named by the spec. -/
def meanEnergy (data : List ℕ) : ℚ := (data.sum : ℚ) / data.length

/-- The global pulsing scale, as named by the spec:
`1 + (mean / 128) * 1.5`. -/
def globalScale (data : List ℕ) : ℚ := 1 + meanEnergy data / 128 * 1.5

/-- The per-dot frequency contribution, as named by the spec:
`(binValue / 255) * 40` for the bin selected by the current dot
angle. -/
def frequencyContribution (data : List ℕ) (dot : Dot) : ℚ :=
  (freqLookup data (binIndex dot.angle data.length) : ℚ) / 255 * 40

/-! Theorems for the claims. -/

/-- C8: on every visualizer frame, the instantaneous radius of each
particle equals `baseRadius * globalScale + frequencyContribution`,
where `globalScale = 1 + (mean energy over all bins / 128) * 1.5` and
`frequencyContribution = (binValue / 255) * 40` for the bin selected by
the current angular position of the particle. -/
theorem c8_dot_radius_decomposition (data : List ℕ) (dot : Dot) :
    dotCurrentRadius data dot
      = dot.baseR * globalScale data + frequencyContribution data dot := by
  simp only [dotCurrentRadius, globalScale, meanEnergy,
    frequencyContribution]

/-- C10: the id of every appended transcript item is the wall-clock
time (in ms) at the moment of append, so two items appended with the
same clock value carry identical ids: id uniqueness over the log is not
guaranteed. Here `now` is the value `Date.now()` returned for both
appends; the two items land at positions `log.length` and
`log.length + 1` and have the same id. -/
theorem c10_id_wall_clock_collision (now : ℕ) (ts1 ts2 : String)
    (log : List TranscriptItem) (o1 t1 o2 t2 : String) :
    (handleNewTranscript now ts1 log o1 t1).getLast? = some ⟨now, o1, t1, ts1⟩ ∧
    (handleNewTranscript now ts2 (handleNewTranscript now ts1 log o1 t1) o2 t2).get?
        log.length = some ⟨now, o1, t1, ts1⟩ ∧
    (handleNewTranscript now ts2 (handleNewTranscript now ts1 log o1 t1) o2 t2).get?
        (log.length + 1) = some ⟨now, o2, t2, ts2⟩ ∧
    ((handleNewTranscript now ts2 (handleNewTranscript now ts1 log o1 t1) o2 t2).get?
        log.length).map TranscriptItem.id
      = ((handleNewTranscript now ts2 (handleNewTranscript now ts1 log o1 t1) o2 t2).get?
        (log.length + 1)).map TranscriptItem.id := by
  unfold handleNewTranscript
  refine ⟨List.getLast?_concat _, ?_, ?_, ?_⟩
  · induction log with
    | nil => rfl
    | cons x xs ih => simpa using ih
  · induction log with
    | nil => rfl
    | cons x xs ih => simpa using ih
  · induction log with
    | nil => rfl
    | cons x xs ih => simpa using ih

/-- C2, counterexample: with the credential missing, the mount check
does set `apiKeyMissing`, but a subsequent `startRecording` call
returns before `getUserMedia` — the microphone is never requested, so
recording attempts ARE blocked by the missing credential. -/
theorem c2_counterexample_start_blocked :
    (mountApiKeyCheck false initialRecorder).apiKeyMissing = true ∧
    (startRecording (mountApiKeyCheck false initialRecorder)
        (Except.ok ⟨[false]⟩)).micRequested = false := by
  exact ⟨rfl, rfl⟩

/-- C2, amended: when the API credential is missing, this is detected
at mount time and surfaced as a persistent warning, and a subsequent
`start()` call returns early with an error message without requesting
microphone access: recording is blocked while the credential is
missing. -/
theorem c2_missing_key_detected_and_blocking (s : RecorderModel)
    (mic : Except JsError MediaStream) (herr : s.error = none) :
    (mountApiKeyCheck false s).apiKeyMissing = true ∧
    apiKeyWarningVisible (mountApiKeyCheck false s) = true ∧
    (startRecording (mountApiKeyCheck false s) mic).micRequested = false ∧
    (startRecording (mountApiKeyCheck false s) mic).recorderStarted = false ∧
    (startRecording (mountApiKeyCheck false s) mic).state.error
      = some apiKeyMissingError ∧
    (startRecording (mountApiKeyCheck false s) mic).state.isRecording
      = s.isRecording := by
  simp [mountApiKeyCheck, apiKeyWarningVisible, startRecording, herr]

/-- Witness for `c2_missing_key_detected_and_blocking` at a concrete
state and microphone outcome. -/
theorem c2_missing_key_detected_and_blocking_witness :
    (mountApiKeyCheck false initialRecorder).apiKeyMissing = true ∧
    apiKeyWarningVisible (mountApiKeyCheck false initialRecorder) = true ∧
    (startRecording (mountApiKeyCheck false initialRecorder)
        (Except.ok ⟨[false]⟩)).micRequested = false ∧
    (startRecording (mountApiKeyCheck false initialRecorder)
        (Except.ok ⟨[false]⟩)).recorderStarted = false ∧
    (startRecording (mountApiKeyCheck false initialRecorder)
        (Except.ok ⟨[false]⟩)).state.error = some apiKeyMissingError ∧
    (startRecording (mountApiKeyCheck false initialRecorder)
        (Except.ok ⟨[false]⟩)).state.isRecording
      = initialRecorder.isRecording :=
  c2_missing_key_detected_and_blocking initialRecorder
    (Except.ok ⟨[false]⟩) rfl

/-- C6: when microphone acquisition fails (the credential check having
passed, so the microphone was actually requested), the session stays
Idle, the error state is the classified user-readable message, the
chunk pipeline is not started, and the classified message is one of the
device-missing / permission-denied / device-busy / other messages. -/
theorem c6_mic_failure_stays_idle (s : RecorderModel) (e : JsError)
    (hkey : s.apiKeyMissing = false) (hidle : s.isRecording = false) :
    (startRecording s (Except.error e)).micRequested = true ∧
    (startRecording s (Except.error e)).state.isRecording = false ∧
    (startRecording s (Except.error e)).state.error
      = some (classifyMicError e) ∧
    (startRecording s (Except.error e)).recorderStarted = false ∧
    (classifyMicError e
        = "No microphone detected. Please connect a microphone and try again."
      ∨ classifyMicError e
        = "Microphone access denied. Please allow microphone access in your browser settings."
      ∨ classifyMicError e
        = "Microphone is in use by another application."
      ∨ classifyMicError e = "Microphone error: " ++ e.message
      ∨ classifyMicError e = "Unable to access microphone.") := by
  refine ⟨?_, ?_, ?_, ?_, ?_⟩
  · simp [startRecording, hkey]
  · simp [startRecording, hkey, hidle]
  · simp [startRecording, hkey]
  · simp [startRecording, hkey]
  · unfold classifyMicError
    split_ifs <;> simp

/-- Witness for `c6_mic_failure_stays_idle`: a permission-denied
failure from the initial state. -/
theorem c6_mic_failure_stays_idle_witness :
    (startRecording initialRecorder
        (Except.error ⟨"NotAllowedError", ""⟩)).micRequested = true ∧
    (startRecording initialRecorder
        (Except.error ⟨"NotAllowedError", ""⟩)).state.isRecording = false ∧
    (startRecording initialRecorder
        (Except.error ⟨"NotAllowedError", ""⟩)).state.error
      = some (classifyMicError ⟨"NotAllowedError", ""⟩) ∧
    (startRecording initialRecorder
        (Except.error ⟨"NotAllowedError", ""⟩)).recorderStarted = false ∧
    (classifyMicError ⟨"NotAllowedError", ""⟩
        = "No microphone detected. Please connect a microphone and try again."
      ∨ classifyMicError ⟨"NotAllowedError", ""⟩
        = "Microphone access denied. Please allow microphone access in your browser settings."
      ∨ classifyMicError ⟨"NotAllowedError", ""⟩
        = "Microphone is in use by another application."
      ∨ classifyMicError ⟨"NotAllowedError", ""⟩
        = "Microphone error: " ++ JsError.message ⟨"NotAllowedError", ""⟩
      ∨ classifyMicError ⟨"NotAllowedError", ""⟩
        = "Unable to access microphone.") :=
  c6_mic_failure_stays_idle initialRecorder ⟨"NotAllowedError", ""⟩ rfl rfl

/-- C7: `togglePause` (both the pause and the resume branch) leaves the
stream, the published analyser handle and the audio context exactly as
they were — nothing is released and no track is stopped — while
`stopRecording` on an active session stops every stream track, closes
the audio context, and publishes a `null` analyser handle. -/
theorem c7_pause_keeps_stop_releases (s : RecorderModel)
    (hmr : s.mediaRecorder.isSome = true) (hrec : s.isRecording = true) :
    ((togglePause s).stream = s.stream ∧
     (togglePause s).analyserPublished = s.analyserPublished ∧
     (togglePause s).audioContext = s.audioContext) ∧
    ((∀ st, s.stream = some st →
        ∃ st2, (stopRecording s).stream = some st2 ∧
          st2.tracks.length = st.tracks.length ∧
          ∀ b ∈ st2.tracks, b = true) ∧
     (∀ ac, s.audioContext = some ac →
        (stopRecording s).audioContext = some ⟨true⟩) ∧
     (stopRecording s).analyserPublished = false) := by
  obtain ⟨rec, paused, err, status, key, mr, stream, ac, an⟩ := s
  simp only [Option.isSome] at hmr
  obtain ⟨m, rfl⟩ : ∃ m, mr = some m := by
    cases mr with
    | none => exact absurd hmr (by simp)
    | some m => exact ⟨m, rfl⟩
  cases hrec
  constructor
  · cases paused <;> simp [togglePause]
  · refine ⟨?_, ?_, ?_⟩
    · intro st hst
      cases hst
      exact ⟨⟨st.tracks.map (fun _ => true)⟩, by simp [stopRecording],
        by simp, by simp⟩
    · intro ac2 hac
      cases hac
      simp [stopRecording]
    · simp [stopRecording]

/-- Witness for `c7_pause_keeps_stop_releases` at a concrete recording
state with a two-track stream. -/
theorem c7_pause_keeps_stop_releases_witness :
    (let s : RecorderModel :=
      ⟨true, false, none, none, false, some .recording,
        some ⟨[false, false]⟩, some ⟨false⟩, true⟩
     ((togglePause s).stream = s.stream ∧
      (togglePause s).analyserPublished = s.analyserPublished ∧
      (togglePause s).audioContext = s.audioContext) ∧
     ((∀ st, s.stream = some st →
         ∃ st2, (stopRecording s).stream = some st2 ∧
           st2.tracks.length = st.tracks.length ∧
           ∀ b ∈ st2.tracks, b = true) ∧
      (∀ ac, s.audioContext = some ac →
         (stopRecording s).audioContext = some ⟨true⟩) ∧
      (stopRecording s).analyserPublished = false)) :=
  c7_pause_keeps_stop_releases
    ⟨true, false, none, none, false, some .recording,
      some ⟨[false, false]⟩, some ⟨false⟩, true⟩ rfl rfl

/-- C1: a transcript item is appended for a chunk only if stage 1
completed without raising and its result survives the non-empty guard;
when the stage-1 call raises, the chunk produces no item, leaves the
transcript log unchanged, and does not terminate the session (the
recording flag, the recorder, the stream and the analyser are all
untouched by that chunk). -/
theorem c1_stage1_gate :
    (∀ language o, ((processChunk language o).appended).isSome = true →
      ∃ t, o.stage1 = Except.ok t ∧ emptyTranscriptGuard t = false) ∧
    (∀ language o e now ts log s, o.stage1 = Except.error e →
      (processChunk language o).appended = none ∧
      processChunkLog language o now ts log = log ∧
      (processChunkState s o).isRecording = s.isRecording ∧
      (processChunkState s o).mediaRecorder = s.mediaRecorder ∧
      (processChunkState s o).stream = s.stream ∧
      (processChunkState s o).analyserPublished = s.analyserPublished) := by
  constructor
  · rintro language ⟨s1, s2, s3⟩ h
    cases s1 with
    | error e => simp [processChunk] at h
    | ok t =>
      refine ⟨t, rfl, ?_⟩
      cases hg : emptyTranscriptGuard t with
      | false => rfl
      | true => simp [processChunk, hg] at h
  · rintro language ⟨s1, s2, s3⟩ e now ts log s h
    cases s1 with
    | ok t => exact absurd h (by simp)
    | error e2 =>
      refine ⟨rfl, rfl, ?_, ?_, ?_, ?_⟩ <;>
        · simp only [processChunkState]
          split <;> rfl

/-- Witness for `c1_stage1_gate` (its second conjunct) at a raising
stage-1 call on a concrete chunk, log and state. -/
theorem c1_stage1_gate_witness :
    (processChunk "ko"
        ⟨Except.error ⟨"Error", "boom"⟩, Except.ok none, Except.ok none⟩).appended
      = none ∧
    processChunkLog "ko"
        ⟨Except.error ⟨"Error", "boom"⟩, Except.ok none, Except.ok none⟩
        7 "12:00:00" [] = [] ∧
    (processChunkState initialRecorder
        ⟨Except.error ⟨"Error", "boom"⟩, Except.ok none, Except.ok none⟩).isRecording
      = initialRecorder.isRecording ∧
    (processChunkState initialRecorder
        ⟨Except.error ⟨"Error", "boom"⟩, Except.ok none, Except.ok none⟩).mediaRecorder
      = initialRecorder.mediaRecorder ∧
    (processChunkState initialRecorder
        ⟨Except.error ⟨"Error", "boom"⟩, Except.ok none, Except.ok none⟩).stream
      = initialRecorder.stream ∧
    (processChunkState initialRecorder
        ⟨Except.error ⟨"Error", "boom"⟩, Except.ok none, Except.ok none⟩).analyserPublished
      = initialRecorder.analyserPublished :=
  c1_stage1_gate.2 "ko"
    ⟨Except.error ⟨"Error", "boom"⟩, Except.ok none, Except.ok none⟩
    ⟨"Error", "boom"⟩ 7 "12:00:00" [] initialRecorder rfl

/-- C3: a chunk whose stage-1 output is empty or whitespace-only never
produces a transcript item, and neither the correction nor the
translation request is ever sent for it. -/
theorem c3_whitespace_chunk_discarded (language : String)
    (o : ChunkOracle) (t : String) (h1 : o.stage1 = Except.ok t)
    (h2 : jsTrim t = "") :
    (processChunk language o).appended = none ∧
    (processChunk language o).stage2Request = none ∧
    (processChunk language o).stage3Request = none := by
  obtain ⟨s1, s2, s3⟩ := o
  cases s1 with
  | error e => exact absurd h1 (by simp)
  | ok t2 =>
    have ht : t2 = t := by
      injection h1
    subst ht
    have hg : emptyTranscriptGuard t2 = true := by
      unfold emptyTranscriptGuard
      rw [h2]
      rw [show String.isEmpty "" = true from rfl]
      simp
    simp [processChunk, hg]

/-- Witness for `c3_whitespace_chunk_discarded` at a whitespace-only
stage-1 result. -/
theorem c3_whitespace_chunk_discarded_witness :
    (processChunk "ko"
        ⟨Except.ok "  ", Except.ok (some "x"), Except.ok (some "y")⟩).appended
      = none ∧
    (processChunk "ko"
        ⟨Except.ok "  ", Except.ok (some "x"), Except.ok (some "y")⟩).stage2Request
      = none ∧
    (processChunk "ko"
        ⟨Except.ok "  ", Except.ok (some "x"), Except.ok (some "y")⟩).stage3Request
      = none :=
  c3_whitespace_chunk_discarded "ko"
    ⟨Except.ok "  ", Except.ok (some "x"), Except.ok (some "y")⟩
    "  " rfl (by decide)

/-- C4: when stage 2 fails — its remote call raises, or returns with no
content — the pipeline continues with the original stage-1 transcript
as the correction output: stage 3 is still invoked (on that original
transcript) and a transcript item whose original field is that
transcript is still appended. -/
theorem c4_stage2_failure_falls_back (language : String)
    (o : ChunkOracle) (t : String) (h1 : o.stage1 = Except.ok t)
    (h2 : emptyTranscriptGuard t = false)
    (h3 : (∃ e, o.stage2 = Except.error e) ∨ o.stage2 = Except.ok none) :
    (processChunk language o).appended
      = some (t, (translateText t o.stage3).2) ∧
    (processChunk language o).stage3Request = some (translateRequest t) := by
  obtain ⟨s1, s2, s3⟩ := o
  cases s1 with
  | error e => exact absurd h1 (by simp)
  | ok t2 =>
    have ht : t2 = t := by injection h1
    subst ht
    have hcorr : (correctTranscript t2 s2).2 = t2 := by
      rcases h3 with ⟨e, he⟩ | he
      · rw [show s2 = Except.error e from he]
        rfl
      · rw [show s2 = Except.ok none from he]
        rfl
    constructor
    · simp [processChunk, h2, hcorr]
    · simp [processChunk, h2, hcorr, translateText, translateRequest]

/-- Witness for `c4_stage2_failure_falls_back`: stage 2 raises, the
item still appears with the uncorrected transcript. -/
theorem c4_stage2_failure_falls_back_witness :
    (processChunk "ko"
        ⟨Except.ok "hello", Except.error ⟨"Error", "down"⟩,
          Except.ok (some "bonjour")⟩).appended
      = some ("hello",
          (translateText "hello" (Except.ok (some "bonjour"))).2) ∧
    (processChunk "ko"
        ⟨Except.ok "hello", Except.error ⟨"Error", "down"⟩,
          Except.ok (some "bonjour")⟩).stage3Request
      = some (translateRequest "hello") :=
  c4_stage2_failure_falls_back "ko"
    ⟨Except.ok "hello", Except.error ⟨"Error", "down"⟩,
      Except.ok (some "bonjour")⟩
    "hello" rfl (by decide) (Or.inl ⟨⟨"Error", "down"⟩, rfl⟩)

/-- C5: when stage 3 fails — its remote call raises, or returns with no
content — a transcript item is still appended, its translation field is
the empty string, and its original field is the corrected text, which
is non-empty. -/
theorem c5_stage3_failure_empty_translation (language : String)
    (o : ChunkOracle) (t : String) (h1 : o.stage1 = Except.ok t)
    (h2 : emptyTranscriptGuard t = false)
    (h3 : (∃ e, o.stage3 = Except.error e) ∨ o.stage3 = Except.ok none) :
    ∃ corrected, corrected ≠ "" ∧
      (processChunk language o).appended = some (corrected, "") := by
  obtain ⟨s1, s2, s3⟩ := o
  cases s1 with
  | error e => exact absurd h1 (by simp)
  | ok t2 =>
    have ht : t2 = t := by injection h1
    subst ht
    have htne : t2 ≠ "" := by
      intro hemp
      subst hemp
      exact absurd h2 (by decide)
    have hne : (correctTranscript t2 s2).2 ≠ "" := by
      cases s2 with
      | error e => exact htne
      | ok content =>
        cases content with
        | none => exact htne
        | some c =>
          simp only [correctTranscript, jsOrString]
          split
          · exact htne
          · next hc =>
            intro hemp
            rw [hemp] at hc
            exact hc rfl
    have htr : (translateText (correctTranscript t2 s2).2 s3).2 = "" := by
      rcases h3 with ⟨e, he⟩ | he
      · rw [show s3 = Except.error e from he]
        rfl
      · rw [show s3 = Except.ok none from he]
        rfl
    exact ⟨(correctTranscript t2 s2).2, hne, by simp [processChunk, h2, htr]⟩

/-- Witness for `c5_stage3_failure_empty_translation`: stage 3 raises,
the item still appears with an empty translation. -/
theorem c5_stage3_failure_empty_translation_witness :
    ∃ corrected, corrected ≠ "" ∧
      (processChunk "ko"
          ⟨Except.ok "hello", Except.ok (some "Hello."),
            Except.error ⟨"Error", "down"⟩⟩).appended
        = some (corrected, "") :=
  c5_stage3_failure_empty_translation "ko"
    ⟨Except.ok "hello", Except.ok (some "Hello."),
      Except.error ⟨"Error", "down"⟩⟩
    "hello" rfl (by decide) (Or.inl ⟨⟨"Error", "down"⟩, rfl⟩)

/-- C9: whenever the stage-3 translation request is sent for a chunk,
it carries the default target language: its system instruction is the
`targetLang = "en"` instantiation, i.e. it always asks for translation
into English, whatever the selected source language was. -/
theorem c9_translation_always_english (language : String)
    (o : ChunkOracle) (r : ChatRequest)
    (h : (processChunk language o).stage3Request = some r) :
    r.system = translationSystemPrompt "en" ∧
    r.system = "You are a professional translator. Translate the user input into English. If it is already English, just refine it slightly." := by
  obtain ⟨s1, s2, s3⟩ := o
  cases s1 with
  | error e => simp [processChunk] at h
  | ok t =>
    cases hg : emptyTranscriptGuard t with
    | true => simp [processChunk, hg] at h
    | false =>
      simp [processChunk, hg, translateText, translateRequest] at h
      rw [← h]
      exact ⟨rfl, rfl⟩

/-- Witness for `c9_translation_always_english` on a concrete chunk
whose stage 3 was invoked. -/
theorem c9_translation_always_english_witness :
    (translateRequest "Hello.").system = translationSystemPrompt "en" ∧
    (translateRequest "Hello.").system = "You are a professional translator. Translate the user input into English. If it is already English, just refine it slightly." :=
  c9_translation_always_english "ko"
    ⟨Except.ok "hello", Except.ok (some "Hello."),
      Except.ok (some "Bonjour.")⟩
    (translateRequest "Hello.") (by decide)

end LiveTranslation
